import Mathlib

/-!
Verification of the Audio Playback Coordinator of the Base-Jase soundboard.

The embedding below is a shallow model of the module `utils/audio.ts`
(functions `stopAllSounds`, `fadeOutAllSounds`, `playAudioBlob`,
`setMasterVolume`) and of the WAV container wrapper `createWavFile` from
`services/geminiService.ts`.  Module-level mutable state (`activeSources`,
`fadeTimeout`, the master gain node) is modelled as an explicit record
`CoordState` threaded through the operations.  The browser timer queue
(`window.setTimeout` / `window.clearTimeout`) is modelled by a list of live
timer ids plus a fresh-id counter; the Web Audio gain automation calls are
recorded as explicit event lists.  Times, durations and gain values are
rationals.  The model assumes the lazily created `AudioContext` / master
gain already exist (`getAudioContext` has run once): every claim under
study concerns registry / fade / gain behaviour, which is identical from
that point on.
-/

/-- Playback status of one `AudioBufferSourceNode`. -/
inductive VoiceStatus
  | playing
  | stopped
  | ended
deriving DecidableEq, Repr

/-- Kind of a scheduled gain-automation event on a per-voice `GainNode`. -/
inductive GainEventKind
  | setValueAtTime
  | linearRampToValueAtTime
deriving DecidableEq, Repr

/-- One scheduled gain-automation event: the call kind, the value argument and
the time argument. -/
structure GainEvent where
  kind : GainEventKind
  value : ℚ
  time : ℚ
deriving DecidableEq, Repr

/-- One `AudioSourceEntry` of `utils/audio.ts` (source node + its gain node),
together with the platform-side state the claims talk about: the source's
playback status, the gain's current value, the gain's scheduled automation
events, and whether `source.stop()` throws because the source is already in a
terminal platform state. -/
structure VoiceEntry where
  id : Nat
  gainValue : ℚ
  ramps : List GainEvent
  status : VoiceStatus
  stopThrows : Bool
deriving DecidableEq, Repr

/-- A master-gain automation call issued on `masterGainNode.gain`. -/
inductive MasterCmd
  | setTargetAtTime (target : ℚ) (startTime : ℚ) (timeConstant : ℚ)
  | setValueInstant (v : ℚ)
deriving DecidableEq, Repr

/-- The mutable module state of `utils/audio.ts`:
`activeSources` is the Set of active entries (kept as the list of their ids;
order is irrelevant, membership is what matters), `fadeTimeout` the nullable
timer handle, `scheduledTimers` the ids of the `setTimeout` callbacks that are
scheduled and have not yet fired or been cleared, `voices` the store of every
voice entry ever created (platform objects outlive registry removal),
`masterCmds` the automation calls issued on the master gain, and `now` the
audio context clock `ctx.currentTime`. -/
structure CoordState where
  activeSources : List Nat
  voices : List VoiceEntry
  fadeTimeout : Option Nat
  scheduledTimers : List Nat
  nextTimerId : Nat
  nextVoiceId : Nat
  masterCmds : List MasterCmd
  now : ℚ
deriving DecidableEq, Repr

/-- The initial module state: empty registry, no pending fade, no timers. -/
def initState : CoordState :=
  { activeSources := []
    voices := []
    fadeTimeout := none
    scheduledTimers := []
    nextTimerId := 0
    nextVoiceId := 0
    masterCmds := []
    now := 0 }

/-- Lines 34-38 of `utils/audio.ts`: `if (fadeTimeout) { clearTimeout; fadeTimeout = null }`.
Clearing a timer removes it from the live timer queue. -/
def clearFadeTimeout (s : CoordState) : CoordState :=
  match s.fadeTimeout with
  | some tid =>
      { s with scheduledTimers := s.scheduledTimers.filter (fun x => x ≠ tid)
               fadeTimeout := none }
  | none => s

/-- The body of the `forEach` in `stopAllSounds` for one entry:
`try { gain.gain.cancelScheduledValues(0); source.stop(); } catch (e) { }`.
`cancelScheduledValues(0)` removes every event scheduled at or after time 0;
it runs first, so it takes effect even when `source.stop()` then throws
(already-stopped source); the exception is swallowed. -/
def stopVoice (v : VoiceEntry) : VoiceEntry :=
  { v with ramps := v.ramps.filter (fun e => e.time < 0)
           status := if v.stopThrows then v.status else .stopped }

/-- `stopAllSounds` (`utils/audio.ts` lines 33-50): cancel the pending fade
timeout if any, stop every entry in `activeSources` (swallowing per-entry
errors), then `activeSources.clear()`. -/
def stopAllSounds (s : CoordState) : CoordState :=
  let s1 := clearFadeTimeout s
  let s2 := { s1 with
    voices := s1.voices.map fun (v : VoiceEntry) =>
      if v.id ∈ s1.activeSources then stopVoice v else v }
  { s2 with activeSources := [] }

/-- `fadeOutAllSounds(duration)` (`utils/audio.ts` lines 52-88):
early return when no sources are active; `stopAllSounds()` when
`duration <= 0.05`; otherwise clear any existing fade timeout, then for every
active entry cancel its scheduled values from `ctx.currentTime` on, pin the
gain at its current value and ramp linearly to 0 at `ctx.currentTime +
duration`, and finally schedule a fresh `setTimeout(stopAllSounds, duration*1000)`
recorded in `fadeTimeout`. -/
def fadeOutAllSounds (duration : ℚ) (s : CoordState) : CoordState :=
  if s.activeSources = [] then s
  else if duration ≤ 1/20 then stopAllSounds s
  else
    let s1 := clearFadeTimeout s
    let endTime := s1.now + duration
    let s2 := { s1 with
      voices := s1.voices.map fun (v : VoiceEntry) =>
        if v.id ∈ s1.activeSources then
          { v with ramps :=
              v.ramps.filter (fun (e : GainEvent) => e.time < s1.now) ++
              [(⟨.setValueAtTime, v.gainValue, s1.now⟩ : GainEvent),
               (⟨.linearRampToValueAtTime, 0, endTime⟩ : GainEvent)] }
        else v }
    { s2 with fadeTimeout := some s2.nextTimerId
              scheduledTimers := s2.scheduledTimers ++ [s2.nextTimerId]
              nextTimerId := s2.nextTimerId + 1 }

/-- `setMasterVolume(volume)` (`utils/audio.ts` lines 25-31):
`masterGainNode.gain.setTargetAtTime(volume, ctx.currentTime, 0.02)` —
a smoothed exponential approach with time constant 0.02 s. -/
def setMasterVolume (volume : ℚ) (s : CoordState) : CoordState :=
  { s with masterCmds :=
      s.masterCmds ++ [MasterCmd.setTargetAtTime volume s.now (1/50)] }

/-- Errors that the `try` block of `playAudioBlob` can raise: the awaited
`ctx.resume()` rejecting, or `decodeAudioData` rejecting on malformed bytes. -/
inductive PlayError
  | resumeError
  | decodeError
deriving DecidableEq, Repr

/-- The `try` block of `playAudioBlob` (`utils/audio.ts` lines 91-126), with
the two awaited failure points made explicit: `resumeFails` models
`await ctx.resume()` rejecting while the context is suspended, `decodeOk`
models whether `decodeAudioData` succeeds on the blob's bytes.  On the success
path it stops all other sounds (solo enforcement), creates the new source and
gain pair at the requested volume, registers it and starts it. -/
def playBody (decodeOk resumeFails : Bool) (volume : ℚ) (s : CoordState) :
    Except PlayError CoordState :=
  if resumeFails then .error .resumeError
  else if !decodeOk then .error .decodeError
  else
    let s1 := stopAllSounds s
    let v : VoiceEntry :=
      { id := s1.nextVoiceId
        gainValue := volume
        ramps := []
        status := .playing
        stopThrows := false }
    .ok { s1 with voices := s1.voices ++ [v]
                  activeSources := s1.activeSources ++ [v.id]
                  nextVoiceId := s1.nextVoiceId + 1 }

/-- `playAudioBlob` as the caller observes it: the `try` body wrapped in the
`catch (error) { console.error(...) }` of lines 127-129 — every error is
caught, logged and discarded, so the returned promise always resolves and the
module state at the failure point is kept. -/
def playAudioBlobResult (decodeOk resumeFails : Bool) (volume : ℚ)
    (s : CoordState) : Except PlayError CoordState :=
  match playBody decodeOk resumeFails volume s with
  | .ok s2 => .ok s2
  | .error _e => .ok s

/-- The state after a `playAudioBlob` call completes. -/
def playAudioBlob (decodeOk resumeFails : Bool) (volume : ℚ)
    (s : CoordState) : CoordState :=
  match playAudioBlobResult decodeOk resumeFails volume s with
  | .ok s2 => s2
  | .error _e => s

/-- The events the single-threaded event loop can serialize against the
module state: the four coordinator operations, a source's `onended` callback
(which deletes its entry from `activeSources`; a no-op if already removed),
and the fade timeout firing. -/
inductive Op
  | play (decodeOk resumeFails : Bool) (volume : ℚ)
  | stop
  | fade (d : ℚ)
  | ended (id : Nat)
  | timerFire
  | setVol (v : ℚ)

/-- One event-loop step. -/
def step (s : CoordState) : Op → CoordState
  | .play decodeOk resumeFails volume => playAudioBlob decodeOk resumeFails volume s
  | .stop => stopAllSounds s
  | .fade d => fadeOutAllSounds d s
  | .ended id =>
      { s with activeSources := s.activeSources.filter (fun a => a ≠ id)
               voices := s.voices.map fun (v : VoiceEntry) =>
                 if v.id = id ∧ v.status = .playing then { v with status := .ended }
                 else v }
  | .timerFire =>
      match s.fadeTimeout with
      | some tid =>
          if tid ∈ s.scheduledTimers then
            stopAllSounds { s with scheduledTimers := s.scheduledTimers.filter (fun x => x ≠ tid) }
          else s
      | none => s
  | .setVol v => setMasterVolume v s

/-- The state reached from the initial module state by a sequence of events. -/
def runOps (ops : List Op) : CoordState :=
  ops.foldl step initState

/-! ### The WAV container wrapper of `services/geminiService.ts` -/

/-- `view.setUint16(off, v, true)`: the two bytes of `v mod 2^16`,
little-endian, as written by a `DataView`. -/
def u16le (v : Nat) : List Nat := [v % 256, v / 256 % 256]

/-- `view.setUint32(off, v, true)`: the four bytes of `v mod 2^32`,
little-endian, as written by a `DataView`. -/
def u32le (v : Nat) : List Nat :=
  [v % 256, v / 256 % 256, v / 65536 % 256, v / 16777216 % 256]

/-- `writeString(view, off, t)` (`geminiService.ts` lines 115-119): the
`charCodeAt` byte of each character of the tag string. -/
def asciiBytes (t : String) : List Nat := t.toList.map Char.toNat

/-- `createWavFile(samples, sampleRate, numChannels, bitDepth)`
(`geminiService.ts` lines 77-113): a 44-byte RIFF/WAVE header followed by the
raw sample bytes, as the sequence of bytes of the returned `Blob`.  The JS
expression `bitDepth / 8` is float division whose result feeds `setUint32` /
`setUint16`; for the byte depths the container format admits (multiples of 8,
and in this repository always 16) it equals the Nat division used here. -/
def createWavFile (samples : List Nat) (sampleRate numChannels bitDepth : Nat) : List Nat :=
  asciiBytes "RIFF" ++ u32le (36 + samples.length) ++ asciiBytes "WAVE" ++
  asciiBytes "fmt " ++ u32le 16 ++ u16le 1 ++ u16le numChannels ++
  u32le sampleRate ++ u32le (sampleRate * numChannels * (bitDepth / 8)) ++
  u16le (numChannels * (bitDepth / 8)) ++ u16le bitDepth ++
  asciiBytes "data" ++ u32le samples.length ++ samples

/-- Read one byte of a byte sequence (0 beyond the end). -/
def readU8 (bs : List Nat) (i : Nat) : Nat := bs.getD i 0

/-- Read a little-endian 16-bit value at offset `i`. -/
def readU16le (bs : List Nat) (i : Nat) : Nat :=
  readU8 bs i + 256 * readU8 bs (i+1)

/-- Read a little-endian 32-bit value at offset `i`. -/
def readU32le (bs : List Nat) (i : Nat) : Nat :=
  readU8 bs i + 256 * readU8 bs (i+1) + 65536 * readU8 bs (i+2) +
  16777216 * readU8 bs (i+3)

/-- Modelled from the spec: the DecodedBuffer the Decoder produces — "an
in-memory representation of fully decoded audio: multi-channel sample data
plus sample rate and duration"; only the fields the claims mention are kept. -/
structure DecodedBufferM where
  sampleRate : Nat
  duration : ℚ
deriving DecidableEq, Repr

/-- Modelled from the spec: the Decoder (the platform's `decodeAudioData`,
which is not part of this repository's sources) applied to a WAV container of
the shape the Container Wrapper emits.  Per the spec's container table it
reads the sample rate, channel count, bit depth and data length from the
fixed header offsets and fails on an unrecognized container; the resulting
DecodedBuffer's duration in seconds is the data length divided by the byte
rate `rate × channels × bitDepth/8`. -/
def decodeWav (bytes : List Nat) : Option DecodedBufferM :=
  if bytes.take 4 = asciiBytes "RIFF" ∧
     (bytes.drop 8).take 4 = asciiBytes "WAVE" ∧
     (bytes.drop 12).take 4 = asciiBytes "fmt " ∧
     readU16le bytes 20 = 1 ∧
     (bytes.drop 36).take 4 = asciiBytes "data" then
    let rate := readU32le bytes 24
    let ch := readU16le bytes 22
    let depth := readU16le bytes 34
    let dataLen := readU32le bytes 40
    let byteRate := rate * ch * (depth / 8)
    if byteRate = 0 then none
    else some { sampleRate := rate, duration := (dataLen : ℚ) / (byteRate : ℚ) }
  else none

/-- The Web Audio automation curve of `setTargetAtTime(target, t0, tau)`: for
`t` at or after `t0`, starting from the gain value `v0` held at `t0`, the
value is `target + (v0 - target) * exp(-(t - t0)/tau)` — a continuous
exponential approach, never a step. -/
noncomputable def setTargetCurve (v0 target t0 tau t : ℝ) : ℝ :=
  target + (v0 - target) * Real.exp (-((t - t0) / tau))

/-- A reachable state with one active playing voice (the result of one
successful `playAudioBlob` at volume 1/2). -/
def demoActiveState : CoordState := runOps [Op.play true false (1/2)]

/-- A reachable state with an empty registry but a pending fade: play a
sound, start a 1 s fade, then let the source end naturally before the fade
timeout fires. -/
def demoPendingFadeState : CoordState :=
  runOps [Op.play true false 1, Op.fade 1, Op.ended 0]

/-- A state whose registry holds one already-terminal source whose `stop()`
throws, and one normally playing one, with a fade pending — exercising the
error-swallowing path of `stopAllSounds`. -/
def demoThrowState : CoordState :=
  { activeSources := [0, 1]
    voices :=
      [{ id := 0, gainValue := 1,
         ramps := [(⟨.linearRampToValueAtTime, 0, 2⟩ : GainEvent)],
         status := .ended, stopThrows := true },
       { id := 1, gainValue := 1/2, ramps := [], status := .playing,
         stopThrows := false }]
    fadeTimeout := some 7
    scheduledTimers := [7]
    nextTimerId := 8
    nextVoiceId := 2
    masterCmds := []
    now := 1 }

/-- The timer-queue invariant: the live `setTimeout` callbacks are exactly the
one recorded in `fadeTimeout` (unless it already fired), and there are none
when no fade is pending. -/
def TimerInv (s : CoordState) : Prop :=
  (∀ t, s.fadeTimeout = some t → s.scheduledTimers = [] ∨ s.scheduledTimers = [t]) ∧
  (s.fadeTimeout = none → s.scheduledTimers = [])

/-- The inductive invariant of the event loop: the registry holds at most one
voice, every registered id was minted by the voice-id counter, and the timer
queue satisfies `TimerInv`. -/
def CoordInv (s : CoordState) : Prop :=
  s.activeSources.length ≤ 1 ∧
  (∀ a ∈ s.activeSources, a < s.nextVoiceId) ∧
  TimerInv s

/-! ### Unfolding equations for the operations -/

lemma stopAllSounds_eq (s : CoordState) :
    stopAllSounds s =
      { activeSources := []
        voices := s.voices.map fun v => if v.id ∈ s.activeSources then stopVoice v else v
        fadeTimeout := none
        scheduledTimers :=
          match s.fadeTimeout with
          | some tid => s.scheduledTimers.filter (fun x => x ≠ tid)
          | none => s.scheduledTimers
        nextTimerId := s.nextTimerId
        nextVoiceId := s.nextVoiceId
        masterCmds := s.masterCmds
        now := s.now } := by
  cases h : s.fadeTimeout <;> simp [stopAllSounds, clearFadeTimeout, h]

lemma fadeOutAllSounds_empty (d : ℚ) (s : CoordState)
    (h : s.activeSources = []) : fadeOutAllSounds d s = s := by
  unfold fadeOutAllSounds
  rw [if_pos h]

lemma fadeOutAllSounds_eps (d : ℚ) (s : CoordState)
    (hne : ¬ s.activeSources = []) (hd : d ≤ 1/20) :
    fadeOutAllSounds d s = stopAllSounds s := by
  unfold fadeOutAllSounds
  rw [if_neg hne, if_pos hd]

lemma fadeOutAllSounds_pos (d : ℚ) (s : CoordState)
    (hne : ¬ s.activeSources = []) (hd : ¬ d ≤ 1/20) :
    fadeOutAllSounds d s =
      { activeSources := s.activeSources
        voices := s.voices.map fun v =>
          if v.id ∈ s.activeSources then
            { v with ramps :=
                v.ramps.filter (fun e => e.time < s.now) ++
                [(⟨.setValueAtTime, v.gainValue, s.now⟩ : GainEvent),
                 (⟨.linearRampToValueAtTime, 0, s.now + d⟩ : GainEvent)] }
          else v
        fadeTimeout := some s.nextTimerId
        scheduledTimers :=
          (match s.fadeTimeout with
           | some tid => s.scheduledTimers.filter (fun x => x ≠ tid)
           | none => s.scheduledTimers) ++ [s.nextTimerId]
        nextTimerId := s.nextTimerId + 1
        nextVoiceId := s.nextVoiceId
        masterCmds := s.masterCmds
        now := s.now } := by
  unfold fadeOutAllSounds
  rw [if_neg hne, if_neg hd]
  cases h : s.fadeTimeout <;> simp [clearFadeTimeout, h]

lemma playAudioBlob_success (volume : ℚ) (s : CoordState) :
    playAudioBlob true false volume s =
      { stopAllSounds s with
          voices := (stopAllSounds s).voices ++
            [{ id := s.nextVoiceId, gainValue := volume, ramps := [],
               status := .playing, stopThrows := false }]
          activeSources := [s.nextVoiceId]
          nextVoiceId := s.nextVoiceId + 1 } := by
  unfold playAudioBlob playAudioBlobResult playBody
  simp [stopAllSounds_eq]

lemma playAudioBlob_failure (decodeOk resumeFails : Bool) (volume : ℚ)
    (s : CoordState) (h : decodeOk = false ∨ resumeFails = true) :
    playAudioBlob decodeOk resumeFails volume s = s := by
  unfold playAudioBlob playAudioBlobResult playBody
  rcases h with h | h
  · subst h
    cases resumeFails <;> simp
  · subst h
    simp

lemma stopAllSounds_timers_empty (s : CoordState) (h : TimerInv s) :
    (stopAllSounds s).scheduledTimers = [] := by
  obtain ⟨h1, h2⟩ := h
  rw [stopAllSounds_eq]
  cases hf : s.fadeTimeout with
  | none => simpa using h2 hf
  | some t =>
      rcases h1 t hf with h | h <;> simp [h, List.filter]

lemma coordInv_initState : CoordInv initState := by
  refine ⟨by simp [initState], by simp [initState], ?_, ?_⟩ <;> simp [initState]

lemma coordInv_stopAllSounds (s : CoordState) (h : CoordInv s) :
    CoordInv (stopAllSounds s) := by
  have htimers := stopAllSounds_timers_empty s h.2.2
  rw [stopAllSounds_eq] at htimers ⊢
  refine ⟨by simp, by simp, ?_, ?_⟩
  · intro t ht
    simp at ht
  · intro _
    exact htimers

lemma coordInv_playAudioBlob (decodeOk resumeFails : Bool) (volume : ℚ)
    (s : CoordState) (h : CoordInv s) :
    CoordInv (playAudioBlob decodeOk resumeFails volume s) := by
  cases hr : resumeFails with
  | true => rw [playAudioBlob_failure decodeOk true volume s (Or.inr rfl)]; exact h
  | false =>
      cases hd : decodeOk with
      | false => rw [playAudioBlob_failure false false volume s (Or.inl rfl)]; exact h
      | true =>
          have htimers := stopAllSounds_timers_empty s h.2.2
          rw [playAudioBlob_success volume s]
          refine ⟨by simp, ?_, ?_, ?_⟩
          · intro a ha
            simp at ha
            simp [ha, stopAllSounds_eq]
          · intro t ht
            simp [stopAllSounds_eq] at ht
          · intro _
            simpa using htimers

lemma coordInv_fadeOutAllSounds (d : ℚ) (s : CoordState) (h : CoordInv s) :
    CoordInv (fadeOutAllSounds d s) := by
  by_cases hne : s.activeSources = []
  · rw [fadeOutAllSounds_empty d s hne]; exact h
  · by_cases hd : d ≤ 1/20
    · rw [fadeOutAllSounds_eps d s hne hd]; exact coordInv_stopAllSounds s h
    · obtain ⟨hlen, hids, htinv⟩ := h
      have hclr : (stopAllSounds s).scheduledTimers = [] :=
        stopAllSounds_timers_empty s htinv
      rw [stopAllSounds_eq] at hclr
      simp only [ne_eq, decide_not] at hclr
      rw [fadeOutAllSounds_pos d s hne hd]
      refine ⟨by simpa using hlen, by simpa using hids, ?_, ?_⟩
      · intro t ht
        simp at ht
        right
        simp [hclr, ht]
      · intro ht
        simp at ht

lemma coordInv_step (s : CoordState) (op : Op) (h : CoordInv s) :
    CoordInv (step s op) := by
  cases op with
  | play decodeOk resumeFails volume =>
      exact coordInv_playAudioBlob decodeOk resumeFails volume s h
  | stop => exact coordInv_stopAllSounds s h
  | fade d => exact coordInv_fadeOutAllSounds d s h
  | ended id =>
      obtain ⟨hlen, hids, htinv⟩ := h
      refine ⟨?_, ?_, ?_, ?_⟩
      · simp only [step]
        exact le_trans (List.length_filter_le _ _) hlen
      · intro a ha
        simp only [step] at ha ⊢
        exact hids a (List.mem_of_mem_filter ha)
      · intro t ht
        exact htinv.1 t ht
      · intro ht
        exact htinv.2 ht
  | timerFire =>
      simp only [step]
      cases hf : s.fadeTimeout with
      | none => simpa [hf] using h
      | some tid =>
          by_cases hmem : tid ∈ s.scheduledTimers
          · simp only [hmem, if_true]
            apply coordInv_stopAllSounds
            obtain ⟨hlen, hids, htinv⟩ := h
            refine ⟨hlen, hids, ?_, ?_⟩
            · intro t ht
              simp at ht
              rcases htinv.1 tid hf with h1 | h1 <;> simp [h1, ht, List.filter]
            · intro ht
              simp [hf] at ht
          · simp [hmem]
            exact h
  | setVol v =>
      obtain ⟨hlen, hids, htinv⟩ := h
      exact ⟨hlen, hids, htinv⟩

lemma coordInv_foldl (ops : List Op) (s : CoordState) (h : CoordInv s) :
    CoordInv (ops.foldl step s) := by
  induction ops generalizing s with
  | nil => exact h
  | cons op rest ih => exact ih (step s op) (coordInv_step s op h)

lemma coordInv_runOps (ops : List Op) : CoordInv (runOps ops) :=
  coordInv_foldl ops initState coordInv_initState

lemma readU8_cons_zero (a : Nat) (bs : List Nat) : readU8 (a :: bs) 0 = a := by
  simp [readU8]

lemma readU8_cons_succ (a : Nat) (bs : List Nat) (n : Nat) :
    readU8 (a :: bs) (n + 1) = readU8 bs n := by
  simp [readU8]

lemma asciiRIFF : asciiBytes "RIFF" = [82, 73, 70, 70] := by decide

lemma asciiWAVE : asciiBytes "WAVE" = [87, 65, 86, 69] := by decide

lemma asciiFmt : asciiBytes "fmt " = [102, 109, 116, 32] := by decide

lemma asciiData : asciiBytes "data" = [100, 97, 116, 97] := by decide

lemma createWavFile_eq (samples : List Nat) (r c b : Nat) :
    createWavFile samples r c b =
      82 :: 73 :: 70 :: 70 ::
      ((36 + samples.length) % 256) :: ((36 + samples.length) / 256 % 256) ::
      ((36 + samples.length) / 65536 % 256) :: ((36 + samples.length) / 16777216 % 256) ::
      87 :: 65 :: 86 :: 69 ::
      102 :: 109 :: 116 :: 32 ::
      16 :: 0 :: 0 :: 0 ::
      1 :: 0 ::
      (c % 256) :: (c / 256 % 256) ::
      (r % 256) :: (r / 256 % 256) :: (r / 65536 % 256) :: (r / 16777216 % 256) ::
      ((r * c * (b / 8)) % 256) :: ((r * c * (b / 8)) / 256 % 256) ::
      ((r * c * (b / 8)) / 65536 % 256) :: ((r * c * (b / 8)) / 16777216 % 256) ::
      ((c * (b / 8)) % 256) :: ((c * (b / 8)) / 256 % 256) ::
      (b % 256) :: (b / 256 % 256) ::
      100 :: 97 :: 116 :: 97 ::
      (samples.length % 256) :: (samples.length / 256 % 256) ::
      (samples.length / 65536 % 256) :: (samples.length / 16777216 % 256) ::
      samples := by
  simp [createWavFile, u16le, u32le, asciiRIFF, asciiWAVE, asciiFmt, asciiData]

lemma wav_take_riff (samples : List Nat) (r c b : Nat) :
    (createWavFile samples r c b).take 4 = asciiBytes "RIFF" := by
  rw [createWavFile_eq, asciiRIFF]
  simp only [List.take_succ_cons, List.take_zero]

lemma wav_take_wave (samples : List Nat) (r c b : Nat) :
    ((createWavFile samples r c b).drop 8).take 4 = asciiBytes "WAVE" := by
  rw [createWavFile_eq, asciiWAVE]
  simp only [List.drop_succ_cons, List.drop_zero, List.take_succ_cons, List.take_zero]

lemma wav_take_fmt (samples : List Nat) (r c b : Nat) :
    ((createWavFile samples r c b).drop 12).take 4 = asciiBytes "fmt " := by
  rw [createWavFile_eq, asciiFmt]
  simp only [List.drop_succ_cons, List.drop_zero, List.take_succ_cons, List.take_zero]

lemma wav_take_data (samples : List Nat) (r c b : Nat) :
    ((createWavFile samples r c b).drop 36).take 4 = asciiBytes "data" := by
  rw [createWavFile_eq, asciiData]
  simp only [List.drop_succ_cons, List.drop_zero, List.take_succ_cons, List.take_zero]

lemma wav_drop_44 (samples : List Nat) (r c b : Nat) :
    (createWavFile samples r c b).drop 44 = samples := by
  rw [createWavFile_eq]
  simp only [List.drop_succ_cons, List.drop_zero]

lemma wav_length (samples : List Nat) (r c b : Nat) :
    (createWavFile samples r c b).length = 44 + samples.length := by
  rw [createWavFile_eq]
  simp only [List.length_cons]
  omega

lemma demoActiveState_eq :
    demoActiveState =
      { activeSources := [0]
        voices := [{ id := 0, gainValue := 1/2, ramps := [],
                     status := .playing, stopThrows := false }]
        fadeTimeout := none
        scheduledTimers := []
        nextTimerId := 0
        nextVoiceId := 1
        masterCmds := []
        now := 0 } := by
  show playAudioBlob true false (1/2) initState = _
  rw [playAudioBlob_success, stopAllSounds_eq]
  simp [initState]

lemma demoPendingFadeState_eq :
    demoPendingFadeState =
      { activeSources := []
        voices := [{ id := 0, gainValue := 1,
                     ramps := [(⟨.setValueAtTime, 1, 0⟩ : GainEvent),
                               (⟨.linearRampToValueAtTime, 0, 1⟩ : GainEvent)],
                     status := .ended, stopThrows := false }]
        fadeTimeout := some 0
        scheduledTimers := [0]
        nextTimerId := 1
        nextVoiceId := 1
        masterCmds := []
        now := 0 } := by
  have h1 : runOps [Op.play true false 1] =
      { activeSources := [0]
        voices := [{ id := 0, gainValue := 1, ramps := [],
                     status := .playing, stopThrows := false }]
        fadeTimeout := none
        scheduledTimers := []
        nextTimerId := 0
        nextVoiceId := 1
        masterCmds := []
        now := 0 } := by
    show playAudioBlob true false 1 initState = _
    rw [playAudioBlob_success, stopAllSounds_eq]
    simp [initState]
  have h2 : runOps [Op.play true false 1, Op.fade 1] =
      { activeSources := [0]
        voices := [{ id := 0, gainValue := 1,
                     ramps := [(⟨.setValueAtTime, 1, 0⟩ : GainEvent),
                               (⟨.linearRampToValueAtTime, 0, 1⟩ : GainEvent)],
                     status := .playing, stopThrows := false }]
        fadeTimeout := some 0
        scheduledTimers := [0]
        nextTimerId := 1
        nextVoiceId := 1
        masterCmds := []
        now := 0 } := by
    show fadeOutAllSounds 1 (runOps [Op.play true false 1]) = _
    rw [h1, fadeOutAllSounds_pos 1 _ (by simp) (by norm_num)]
    norm_num
  show step (runOps [Op.play true false 1, Op.fade 1]) (Op.ended 0) = _
  rw [h2]
  simp [step]

/-! ### The claims -/

/-- C1: solo invariant — for every sequence of event-loop operations, the
Active Voice Registry holds at most one Voice; immediately after the
solo-enforcement `stopAllSounds` inside a `play` the registry is empty, a
completed successful `play` leaves exactly the newly created Voice
registered, and every Voice registered before the call (sound A, whatever
its remaining duration) is no longer in the registry afterwards. -/
theorem claim1_solo_invariant (ops : List Op) (volume : ℚ) :
    (runOps ops).activeSources.length ≤ 1 ∧
    (stopAllSounds (runOps ops)).activeSources = [] ∧
    (playAudioBlob true false volume (runOps ops)).activeSources
      = [(runOps ops).nextVoiceId] ∧
    (∀ a ∈ (runOps ops).activeSources,
      a ∉ (playAudioBlob true false volume (runOps ops)).activeSources) := by
  obtain ⟨hlen, hids, -⟩ := coordInv_runOps ops
  refine ⟨hlen, by rw [stopAllSounds_eq], by simp [playAudioBlob_success], ?_⟩
  intro a ha
  simp only [playAudioBlob_success, List.mem_singleton]
  exact Nat.ne_of_lt (hids a ha)

/-- C2: for every prior state — any registry contents, any pending fade, and
registry entries whose `stop()` throws because the source is already in a
terminal state — `stopAllSounds` empties the registry, clears the pending
fade (removing the scheduled timeout), and stops every registered Voice and
cancels its scheduled gain changes; the throwing entries are swallowed and do
not prevent the registry from being cleared.  The hypotheses only say that a
source whose `stop()` throws is indeed already terminal and that gain events
are scheduled at nonnegative clock times, both true of every real state. -/
theorem claim2_stopAll_clears_registry (s : CoordState)
    (hthrow : ∀ v ∈ s.voices, v.stopThrows = true → v.status ≠ VoiceStatus.playing)
    (htimes : ∀ v ∈ s.voices, ∀ e ∈ v.ramps, 0 ≤ e.time) :
    (stopAllSounds s).activeSources = [] ∧
    (stopAllSounds s).fadeTimeout = none ∧
    (∀ tid, s.fadeTimeout = some tid → tid ∉ (stopAllSounds s).scheduledTimers) ∧
    (∀ v ∈ (stopAllSounds s).voices, v.id ∈ s.activeSources →
      v.status ≠ VoiceStatus.playing ∧ v.ramps = []) := by
  rw [stopAllSounds_eq]
  refine ⟨rfl, rfl, ?_, ?_⟩
  · intro tid htid
    simp only [htid, List.mem_filter]
    intro hcontra
    simp at hcontra
  · intro v hv hid
    simp only [List.mem_map] at hv
    obtain ⟨w, hw, rfl⟩ := hv
    by_cases hmem : w.id ∈ s.activeSources
    · simp only [hmem, if_true]
      constructor
      · unfold stopVoice
        by_cases ht : w.stopThrows
        · simpa [ht] using hthrow w hw ht
        · simp [ht]
      · unfold stopVoice
        simp only [List.filter_eq_nil_iff]
        intro e he
        simpa using htimes w hw e he
    · rw [if_neg hmem] at hid
      exact absurd hid hmem

/-- C2 witness: at a concrete state holding a pending fade, one playing
source and one already-terminal source whose `stop()` throws, the hypotheses
hold and `stopAllSounds` behaves as claimed. -/
theorem claim2_stopAll_clears_registry_witness :
    ((∀ v ∈ demoThrowState.voices, v.stopThrows = true → v.status ≠ VoiceStatus.playing) ∧
     (∀ v ∈ demoThrowState.voices, ∀ e ∈ v.ramps, 0 ≤ e.time)) ∧
    ((stopAllSounds demoThrowState).activeSources = [] ∧
     (stopAllSounds demoThrowState).fadeTimeout = none ∧
     (∀ tid, demoThrowState.fadeTimeout = some tid →
        tid ∉ (stopAllSounds demoThrowState).scheduledTimers) ∧
     (∀ v ∈ (stopAllSounds demoThrowState).voices, v.id ∈ demoThrowState.activeSources →
        v.status ≠ VoiceStatus.playing ∧ v.ramps = [])) :=
  ⟨⟨by decide, by decide⟩,
   claim2_stopAll_clears_registry demoThrowState (by decide) (by decide)⟩

/-- C3: pending-fade invariant — across every sequence of operations there is
at most one outstanding scheduled fade-completion timeout, and a
`stopAllSounds` issued right after any `fadeOutAllSounds d` (in particular a
`fadeAll(d)` with `d > 0`, before `d` elapses) leaves no scheduled timeout
at all: no orphaned deferred stop can later fire. -/
theorem claim3_pending_fade_unique (ops : List Op) (d : ℚ) :
    (runOps ops).scheduledTimers.length ≤ 1 ∧
    (stopAllSounds (fadeOutAllSounds d (runOps ops))).scheduledTimers = [] := by
  obtain ⟨-, -, htinv⟩ := coordInv_runOps ops
  constructor
  · obtain ⟨h1, h2⟩ := htinv
    cases hf : (runOps ops).fadeTimeout with
    | none => simp [h2 hf]
    | some t => rcases h1 t hf with h | h <;> simp [h]
  · exact stopAllSounds_timers_empty _
      ((coordInv_fadeOutAllSounds d _ (coordInv_runOps ops)).2.2)

/-- C4 counterexample: at the reachable state with one active voice, a
decode failure does NOT surface a `DecodeError` to the caller — the `catch`
block of `playAudioBlob` swallows it, the promise resolves (`Except.ok`), and
the state is returned unchanged.  This refutes the claim's "surfaces a
DecodeError to the caller as a failed operation outcome" (while its
no-partial-side-effects part does hold, see the amended theorem). -/
theorem claim4_counterexample_decode_error_swallowed :
    playAudioBlobResult false false 1 demoActiveState = Except.ok demoActiveState ∧
    playAudioBlob false false 1 demoActiveState = demoActiveState := by
  constructor <;> rfl

/-- C4 (amended): for every payload whose bytes fail to decode, playback does
not start and there are no partial side effects — no Voice is registered, the
Active Voice Registry (indeed the whole coordinator state) is unchanged from
before the call, and any previously playing sound is left untouched — but the
decode failure is caught and only logged inside `playAudioBlob`: the returned
promise resolves, so no `DecodeError` reaches the caller as a failed
operation outcome. -/
theorem claim4_amended_decode_failure_no_side_effects
    (resumeFails : Bool) (volume : ℚ) (s : CoordState) :
    playAudioBlob false resumeFails volume s = s ∧
    playAudioBlobResult false resumeFails volume s = Except.ok s := by
  constructor
  · exact playAudioBlob_failure false resumeFails volume s (Or.inl rfl)
  · unfold playAudioBlobResult playBody
    cases resumeFails <;> simp

/-- C5 counterexample: in the reachable state where the registry is empty but
a fade-completion timeout is still pending (play, fade, then the source ends
naturally), `fadeOutAllSounds 0` returns on the empty-registry early exit and
leaves the pending fade in place, while `stopAllSounds` cancels it — so the
two calls are not observably identical in every prior state, and a pending
fade does remain after `fadeAll(0)`. -/
theorem claim5_counterexample_pending_fade_survives :
    (fadeOutAllSounds 0 demoPendingFadeState).fadeTimeout = some 0 ∧
    (fadeOutAllSounds 0 demoPendingFadeState).scheduledTimers = [0] ∧
    (stopAllSounds demoPendingFadeState).fadeTimeout = none ∧
    fadeOutAllSounds 0 demoPendingFadeState ≠ stopAllSounds demoPendingFadeState := by
  have hempty : demoPendingFadeState.activeSources = [] := by
    rw [demoPendingFadeState_eq]
  have hfade : fadeOutAllSounds 0 demoPendingFadeState = demoPendingFadeState :=
    fadeOutAllSounds_empty 0 _ hempty
  have hstop : (stopAllSounds demoPendingFadeState).fadeTimeout = none := by
    rw [stopAllSounds_eq]
  refine ⟨?_, ?_, hstop, ?_⟩
  · rw [hfade, demoPendingFadeState_eq]
  · rw [hfade, demoPendingFadeState_eq]
  · intro hcontra
    have h := congrArg CoordState.fadeTimeout hcontra
    rw [hfade, hstop, demoPendingFadeState_eq] at h
    exact Option.noConfusion h

/-- C5 (amended): calling `fadeAll` with a duration at or below the 0.05
epsilon is observably identical to `stopAll` — same end state, registry empty,
no pending fade — in every prior state whose registry is nonempty.  (When the
registry is empty, `fadeAll` instead returns on its empty-registry early exit
and, unlike `stopAll`, leaves a previously pending fade uncancelled.) -/
theorem claim5_amended_fade_eps_eq_stopAll (s : CoordState) (d : ℚ)
    (hd : d ≤ 1/20) (hne : s.activeSources ≠ []) :
    fadeOutAllSounds d s = stopAllSounds s :=
  fadeOutAllSounds_eps d s hne hd

/-- C5 (amended) witness: at the reachable state with one active voice,
`fadeOutAllSounds 0` equals `stopAllSounds`. -/
theorem claim5_amended_fade_eps_eq_stopAll_witness :
    ((0 : ℚ) ≤ 1/20 ∧ demoActiveState.activeSources ≠ []) ∧
    fadeOutAllSounds 0 demoActiveState = stopAllSounds demoActiveState :=
  ⟨⟨by norm_num, by rw [demoActiveState_eq]; simp⟩,
   claim5_amended_fade_eps_eq_stopAll demoActiveState 0 (by norm_num)
     (by rw [demoActiveState_eq]; simp)⟩

/-- C9: if the Active Voice Registry is empty when `fadeOutAllSounds d` is
called, the call returns on its first early exit for every duration `d`
(including `d` at or below the 0.05 epsilon) and the state is returned
completely unchanged — in particular an existing pending fade timeout is not
cancelled and stays scheduled, and no gain or registry state is touched. -/
theorem claim9_fade_empty_registry_noop (d : ℚ) (s : CoordState)
    (h : s.activeSources = []) :
    fadeOutAllSounds d s = s :=
  fadeOutAllSounds_empty d s h

/-- C9 witness: at the reachable empty-registry state that still has a
pending fade, `fadeOutAllSounds (1/100)` (a sub-epsilon duration) changes
nothing — the pending fade survives. -/
theorem claim9_fade_empty_registry_noop_witness :
    demoPendingFadeState.activeSources = [] ∧
    fadeOutAllSounds (1/100) demoPendingFadeState = demoPendingFadeState :=
  ⟨by rw [demoPendingFadeState_eq],
   claim9_fade_empty_registry_noop (1/100) demoPendingFadeState
     (by rw [demoPendingFadeState_eq])⟩

/-- C10: for every input (decode success or failure, resume success or
failure) and every prior state, `playAudioBlob` resolves: the catch-wrapped
result is always `Except.ok` — no error escapes to the caller, who therefore
gets no distinguishable success/failure outcome. -/
theorem claim10_play_promise_always_resolves
    (decodeOk resumeFails : Bool) (volume : ℚ) (s : CoordState) :
    ∃ s2, playAudioBlobResult decodeOk resumeFails volume s = Except.ok s2 := by
  unfold playAudioBlobResult
  cases h : playBody decodeOk resumeFails volume s with
  | ok s2 => exact ⟨s2, rfl⟩
  | error e => exact ⟨s, rfl⟩

/-- C6: for every raw sample byte sequence and every (sampleRate, channels,
bitDepth) triple whose fields fit their header slots (chunk size and byte
rate below 2^32, channel count, block align and bit depth below 2^16, and a
byte depth that is a whole number of bytes, as `bitDepth / 8` presupposes),
`createWavFile` produces exactly `44 + L` bytes whose little-endian header
matches the spec's table byte-exactly: magic tag at 0, chunk size `36 + L` at
4, format tag at 8, fmt tag at 12, subchunk1 size 16 at 16, audio format 1 at
20, channel count at 22, sample rate at 24, byte rate
`sampleRate*channels*bitDepth/8` at 28, block align `channels*bitDepth/8` at
32, bits per sample at 34, data tag at 36, data size `L` at 40, and the raw
sample bytes unmodified from offset 44 on. -/
theorem claim6_wav_layout (samples : List Nat) (r c b : Nat)
    (hlen : 36 + samples.length < 4294967296)
    (hrate : r < 4294967296)
    (hch : c < 65536)
    (hdepth : b < 65536)
    (hbr : r * c * (b / 8) < 4294967296)
    (hba : c * (b / 8) < 65536)
    (h8 : 8 ∣ b) :
    (createWavFile samples r c b).length = 44 + samples.length ∧
    (createWavFile samples r c b).take 4 = asciiBytes "RIFF" ∧
    readU32le (createWavFile samples r c b) 4 = 36 + samples.length ∧
    ((createWavFile samples r c b).drop 8).take 4 = asciiBytes "WAVE" ∧
    ((createWavFile samples r c b).drop 12).take 4 = asciiBytes "fmt " ∧
    readU32le (createWavFile samples r c b) 16 = 16 ∧
    readU16le (createWavFile samples r c b) 20 = 1 ∧
    readU16le (createWavFile samples r c b) 22 = c ∧
    readU32le (createWavFile samples r c b) 24 = r ∧
    readU32le (createWavFile samples r c b) 28 = r * c * b / 8 ∧
    readU16le (createWavFile samples r c b) 32 = c * b / 8 ∧
    readU16le (createWavFile samples r c b) 34 = b ∧
    ((createWavFile samples r c b).drop 36).take 4 = asciiBytes "data" ∧
    readU32le (createWavFile samples r c b) 40 = samples.length ∧
    (createWavFile samples r c b).drop 44 = samples := by
  have hmd : r * c * b / 8 = r * c * (b / 8) := Nat.mul_div_assoc (r * c) h8
  have hmd2 : c * b / 8 = c * (b / 8) := Nat.mul_div_assoc c h8
  refine ⟨wav_length samples r c b, wav_take_riff samples r c b, ?_,
    wav_take_wave samples r c b, wav_take_fmt samples r c b, ?_, ?_, ?_, ?_,
    ?_, ?_, ?_, wav_take_data samples r c b, ?_, wav_drop_44 samples r c b⟩
  · rw [createWavFile_eq]
    simp only [readU32le, readU8_cons_succ, readU8_cons_zero]
    omega
  · rw [createWavFile_eq]
    simp only [readU32le, readU8_cons_succ, readU8_cons_zero]
  · rw [createWavFile_eq]
    simp only [readU16le, readU8_cons_succ, readU8_cons_zero]
  · rw [createWavFile_eq]
    simp only [readU16le, readU8_cons_succ, readU8_cons_zero]
    omega
  · rw [createWavFile_eq]
    simp only [readU32le, readU8_cons_succ, readU8_cons_zero]
    omega
  · rw [createWavFile_eq, hmd]
    simp only [readU32le, readU8_cons_succ, readU8_cons_zero]
    omega
  · rw [createWavFile_eq, hmd2]
    simp only [readU16le, readU8_cons_succ, readU8_cons_zero]
    omega
  · rw [createWavFile_eq]
    simp only [readU16le, readU8_cons_succ, readU8_cons_zero]
    omega
  · rw [createWavFile_eq]
    simp only [readU32le, readU8_cons_succ, readU8_cons_zero]
    omega

/-- C6 witness: the layout theorem applied to the concrete sample bytes
`[7, 200, 3]` with the repository's fixed parameters (24000 Hz, mono,
16-bit). -/
theorem claim6_wav_layout_witness :
    (36 + ([7, 200, 3] : List Nat).length < 4294967296 ∧
     24000 < 4294967296 ∧ 1 < 65536 ∧ 16 < 65536 ∧
     24000 * 1 * (16 / 8) < 4294967296 ∧ 1 * (16 / 8) < 65536 ∧ 8 ∣ 16) ∧
    ((createWavFile [7, 200, 3] 24000 1 16).length = 44 + ([7, 200, 3] : List Nat).length ∧
     (createWavFile [7, 200, 3] 24000 1 16).take 4 = asciiBytes "RIFF" ∧
     readU32le (createWavFile [7, 200, 3] 24000 1 16) 4 = 36 + ([7, 200, 3] : List Nat).length ∧
     ((createWavFile [7, 200, 3] 24000 1 16).drop 8).take 4 = asciiBytes "WAVE" ∧
     ((createWavFile [7, 200, 3] 24000 1 16).drop 12).take 4 = asciiBytes "fmt " ∧
     readU32le (createWavFile [7, 200, 3] 24000 1 16) 16 = 16 ∧
     readU16le (createWavFile [7, 200, 3] 24000 1 16) 20 = 1 ∧
     readU16le (createWavFile [7, 200, 3] 24000 1 16) 22 = 1 ∧
     readU32le (createWavFile [7, 200, 3] 24000 1 16) 24 = 24000 ∧
     readU32le (createWavFile [7, 200, 3] 24000 1 16) 28 = 24000 * 1 * 16 / 8 ∧
     readU16le (createWavFile [7, 200, 3] 24000 1 16) 32 = 1 * 16 / 8 ∧
     readU16le (createWavFile [7, 200, 3] 24000 1 16) 34 = 16 ∧
     ((createWavFile [7, 200, 3] 24000 1 16).drop 36).take 4 = asciiBytes "data" ∧
     readU32le (createWavFile [7, 200, 3] 24000 1 16) 40 = ([7, 200, 3] : List Nat).length ∧
     (createWavFile [7, 200, 3] 24000 1 16).drop 44 = [7, 200, 3]) :=
  ⟨⟨by decide, by decide, by decide, by decide, by decide, by decide, by decide⟩,
   claim6_wav_layout [7, 200, 3] 24000 1 16 (by decide) (by decide) (by decide)
     (by decide) (by decide) (by decide) (by decide)⟩

/-- C7: round-trip — wrapping any raw PCM byte sequence `X` (of
header-representable length) with the Container Wrapper at rate 24000, mono,
16-bit and then decoding the wrapped payload succeeds and yields a
DecodedBuffer whose duration is exactly `len(X) / (24000 * 1 * 2)` seconds. -/
theorem claim7_wav_roundtrip (X : List Nat) (hL : X.length < 4294967296) :
    decodeWav (createWavFile X 24000 1 16) =
      some { sampleRate := 24000, duration := (X.length : ℚ) / 48000 } := by
  have hdata : readU32le (createWavFile X 24000 1 16) 40 = X.length := by
    rw [createWavFile_eq]
    simp only [readU32le, readU8_cons_succ, readU8_cons_zero]
    omega
  have hrate : readU32le (createWavFile X 24000 1 16) 24 = 24000 := by
    rw [createWavFile_eq]
    simp only [readU32le, readU8_cons_succ, readU8_cons_zero]
  have hch : readU16le (createWavFile X 24000 1 16) 22 = 1 := by
    rw [createWavFile_eq]
    simp only [readU16le, readU8_cons_succ, readU8_cons_zero]
  have hdepth : readU16le (createWavFile X 24000 1 16) 34 = 16 := by
    rw [createWavFile_eq]
    simp only [readU16le, readU8_cons_succ, readU8_cons_zero]
  have hfmt : readU16le (createWavFile X 24000 1 16) 20 = 1 := by
    rw [createWavFile_eq]
    simp only [readU16le, readU8_cons_succ, readU8_cons_zero]
  unfold decodeWav
  rw [if_pos ⟨wav_take_riff X 24000 1 16, wav_take_wave X 24000 1 16,
    wav_take_fmt X 24000 1 16, hfmt, wav_take_data X 24000 1 16⟩]
  simp only [hrate, hch, hdepth, hdata]
  norm_num

/-- C7 witness: the round-trip theorem applied to the concrete PCM byte
sequence `[1, 2, 3, 4]`: decoding its wrapped container yields duration
`4 / 48000` seconds. -/
theorem claim7_wav_roundtrip_witness :
    ([1, 2, 3, 4] : List Nat).length < 4294967296 ∧
    decodeWav (createWavFile [1, 2, 3, 4] 24000 1 16) =
      some { sampleRate := 24000,
             duration := ((([1, 2, 3, 4] : List Nat).length : ℚ) / 48000) } :=
  ⟨by decide, claim7_wav_roundtrip [1, 2, 3, 4] (by decide)⟩

/-- C8: `setMasterVolume(level)` applies the new master-gain target with a
single `setTargetAtTime(level, now, 0.02)` call — a smoothed transition with
the strictly positive 20 ms time constant, never an instantaneous
zero-duration step — and calling it twice with the same level just issues the
same transition twice.  The platform curve such a call produces starts
exactly at the gain's current value (`setTargetCurve v0 target t0 tau t0 =
v0`) and is continuous in time, so no discontinuity arises at either call,
in particular not when the second call's target is already current. -/
theorem claim8_master_volume_smooth (s : CoordState) (volume : ℚ) :
    (setMasterVolume volume s).masterCmds =
      s.masterCmds ++ [MasterCmd.setTargetAtTime volume s.now (1/50)] ∧
    (0 : ℚ) < 1/50 ∧
    (setMasterVolume volume (setMasterVolume volume s)).masterCmds =
      s.masterCmds ++ [MasterCmd.setTargetAtTime volume s.now (1/50),
                       MasterCmd.setTargetAtTime volume s.now (1/50)] ∧
    (∀ v0 target t0 tau : ℝ, setTargetCurve v0 target t0 tau t0 = v0) ∧
    (∀ v0 target t0 tau : ℝ, Continuous (setTargetCurve v0 target t0 tau)) := by
  refine ⟨rfl, by norm_num, ?_, ?_, ?_⟩
  · simp [setMasterVolume]
  · intro v0 target t0 tau
    simp [setTargetCurve]
  · intro v0 target t0 tau
    unfold setTargetCurve
    continuity
